import Mathlib

/-!
Verification of the worktree-creation scripts in nikblanchet/claude-skills.

The development shallowly embeds the three `create_worktree` / `setup-worktree`
script variants:

* string helpers mirroring the Python `str` operations the scripts use
  (`in`, `split(sep, 1)`, `strip()`, `int()`);
* the Change-Inclusion Resolver (menu construction and mode resolution);
* the Branch/Worktree Inspector (`find_worktree_for_branch`,
  `check_local_changes`) over captured command results;
* the Worktree Materializer over an abstract git-repository state;
* the Shared-Resource Linker over an abstract filesystem.

Every definition is translated from the Python sources; external command
behaviour (git, the filesystem) is modelled by explicit state so that each
script decision point branches on the same data the script inspects
(exit codes, stdout text, path existence).
-/

namespace ClaudeSkills

/-! ## String helpers (Python `str` operations, executable over `List Char`) -/

/-- `charsHavePre p s` is true when `p` is an initial segment of `s`
(Python `s.startswith(p)` on the char lists). -/
def charsHavePre : List Char → List Char → Bool
  | [], _ => true
  | _ :: _, [] => false
  | a :: ps, b :: ss => a == b && charsHavePre ps ss

/-- `charsContain pat s` is true when `pat` occurs contiguously in `s`
(Python `pat in s`). -/
def charsContain (pat : List Char) : List Char → Bool
  | [] => charsHavePre pat []
  | c :: rest => charsHavePre pat (c :: rest) || charsContain pat rest

/-- Python `sub in s` substring membership test. -/
def containsSubstr (s sub : String) : Bool :=
  charsContain sub.data s.data

/-- Everything after the first occurrence of `sep`, if `sep` occurs at all
(Python `s.split(sep, 1)[1]`, used only under an `in` guard). -/
def charsAfterFirst (sep : List Char) : List Char → Option (List Char)
  | [] => if charsHavePre sep [] then Option.some [] else Option.none
  | c :: rest =>
      if charsHavePre sep (c :: rest) then Option.some ((c :: rest).drop sep.length)
      else charsAfterFirst sep rest

/-- Python `s.split(sep, 1)[1]` for string arguments, `none` when absent. -/
def afterFirst (s sep : String) : Option String :=
  match charsAfterFirst sep.data s.data with
  | Option.some l => Option.some (String.mk l)
  | Option.none => Option.none

/-- Whitespace characters stripped by Python `str.strip()` (the subset the
scripts can encounter in command output). -/
def isWs (c : Char) : Bool :=
  c == ' ' || c == '\t' || c == '\n' || c == '\r'

/-- Python `s.strip()` on char lists. -/
def charsTrim (l : List Char) : List Char :=
  ((l.dropWhile isWs).reverse.dropWhile isWs).reverse

/-- Python `s.strip()`. -/
def strTrim (s : String) : String :=
  String.mk (charsTrim s.data)

/-- Split a char list on one separator character, Python `s.split(sep)`. -/
def charsSplitOnChar (sep : Char) : List Char → List (List Char)
  | [] => [[]]
  | c :: rest =>
    match charsSplitOnChar sep rest with
    | h :: t => if c == sep then [] :: h :: t else (c :: h) :: t
    | [] => if c == sep then [[], []] else [[c]]

/-- Python `s.split('\n')`. -/
def splitLines (s : String) : List String :=
  (charsSplitOnChar '\n' s.data).map String.mk

/-- Digit-sequence accumulator for `charsToNat?`. -/
def charsToNatAux : List Char → Nat → Option Nat
  | [], acc => Option.some acc
  | c :: rest, acc =>
      if c.isDigit then charsToNatAux rest (acc * 10 + (c.toNat - 48))
      else Option.none

/-- Python `int(s)` restricted to the non-negative decimal output of
`git rev-list --count`; `none` models the `ValueError` crash. -/
def charsToNat? : List Char → Option Nat
  | [] => Option.none
  | c :: rest => charsToNatAux (c :: rest) 0

/-- Python `int(s.strip())` on a string. -/
def strToNat? (s : String) : Option Nat :=
  charsToNat? (charsTrim s.data)

/-! ## Data model -/

/-- Result of one external command: exit code plus captured output, as in
`subprocess.run(..., capture_output=True, text=True)`. -/
structure CmdResult where
  exitCode : Nat
  stdout : String
  stderr : String
deriving Repr, DecidableEq

/-- The four change-inclusion modes of `--include-changes`:
`none | uncommitted | unpushed | all`. -/
inductive InclusionMode
  | none
  | uncommitted
  | unpushed
  | all
deriving Repr, DecidableEq

/-- The dictionary produced by `check_local_changes`. -/
structure ChangeSet where
  uncommitted : Bool
  uncommitted_output : String
  unpushed : Bool
  unpushed_count : Nat
  unpushed_log : String
deriving Repr, DecidableEq

/-- The all-false `changes` dictionary `check_local_changes` starts from. -/
def emptyChanges : ChangeSet :=
  { uncommitted := false, uncommitted_output := ""
    unpushed := false, unpushed_count := 0, unpushed_log := "" }

/-! ## Change-Inclusion Resolver -/

/-- The numbered option menu built by `prompt_include_changes`
(docimp `create_worktree.py` lines 733-766, wtd lines 346-373): option 1 is
always `none`; `uncommitted`, `unpushed` and finally `all` are appended, each
guarded by the corresponding flag of the ChangeSet, numbering sequentially. -/
def prompt_include_changes_options (ci : ChangeSet) : List (Nat × InclusionMode) :=
  let acc : List (Nat × InclusionMode) × Nat := ([(1, InclusionMode.none)], 2)
  let acc :=
    if ci.uncommitted then (acc.1 ++ [(acc.2, InclusionMode.uncommitted)], acc.2 + 1) else acc
  let acc :=
    if ci.unpushed then (acc.1 ++ [(acc.2, InclusionMode.unpushed)], acc.2 + 1) else acc
  let acc :=
    if ci.uncommitted && ci.unpushed then (acc.1 ++ [(acc.2, InclusionMode.all)], acc.2 + 1)
    else acc
  acc.1

/-- The default menu choice of `prompt_include_changes`: the `all` option
number when both kinds of change exist, otherwise option 2 for the single
change kind, otherwise option 1 (`none`). -/
def prompt_include_changes_default (ci : ChangeSet) : Nat :=
  if ci.uncommitted && ci.unpushed then (prompt_include_changes_options ci).length
  else if ci.uncommitted then 2
  else if ci.unpushed then 2
  else 1

/-- Change-inclusion resolution inside `main` (docimp lines 844-868, wtd
lines 666-682): when a source worktree was found and the ChangeSet reports
some change, a pre-selected mode is used as-is and otherwise the interactive
prompt runs (`promptResult` is the mode the prompt would return); when the
ChangeSet reports no change, or no source worktree was found, the choice is
forced to `none`. The returned Bool records whether the prompt ran. -/
def resolve_include_changes (preselected : Option InclusionMode)
    (hasSourceWorktree : Bool) (ci : ChangeSet)
    (promptResult : InclusionMode) : InclusionMode × Bool :=
  if hasSourceWorktree then
    if ci.uncommitted || ci.unpushed then
      match preselected with
      | Option.none => (promptResult, true)
      | Option.some m => (m, false)
    else (InclusionMode.none, false)
  else (InclusionMode.none, false)

/-! ## Branch/Worktree Inspector -/

/-- The `for line in ...` loop of `find_worktree_for_branch` (docimp lines
627-644, wtd lines 255-271), carrying `current_worktree` and
`current_branch`: a `worktree ` line sets the path, a `branch ` line sets the
branch (the part after `refs/heads/` when present, else `None`), an empty
line returns the current path when its branch matches and otherwise resets
both; the final entry is checked after the loop. -/
def worktreeLinesGo (branchName : String) :
    List String → Option String → Option String → Option String
  | [], curWt, curBr =>
      if curBr == Option.some branchName && curWt.isSome then curWt else Option.none
  | line :: rest, curWt, curBr =>
      if charsHavePre "worktree ".data line.data then
        worktreeLinesGo branchName rest (Option.some (String.mk (line.data.drop 9))) curBr
      else if charsHavePre "branch ".data line.data then
        worktreeLinesGo branchName rest curWt (afterFirst line "refs/heads/")
      else if line == "" then
        if curBr == Option.some branchName && curWt.isSome then curWt
        else worktreeLinesGo branchName rest Option.none Option.none
      else
        worktreeLinesGo branchName rest curWt curBr

/-- `find_worktree_for_branch` (docimp lines 611-644, wtd lines 246-271):
parse `git worktree list --porcelain` output and return the first worktree
path whose checked-out branch matches. The embedding convention maps every
`exit_with_error` path of the source to `Except.error`; this function has no
such path: a failed listing (`returncode != 0`) yields `Option.none`, the
same value as "branch not checked out in any worktree". -/
def find_worktree_for_branch (branchName : String) (listResult : CmdResult) :
    Except String (Option String) :=
  if listResult.exitCode != 0 then Except.ok Option.none
  else
    Except.ok (worktreeLinesGo branchName (splitLines (strTrim listResult.stdout))
      Option.none Option.none)

/-- `check_local_changes` (docimp lines 647-695, wtd lines 274-315) over the
four captured query results: status flags uncommitted only when its query
succeeded with nonblank output; the unpushed fields are filled only when the
upstream query succeeded, the count query succeeded and the count is
positive. `Except.error` models the uncaught `ValueError` of
`int(count_result.stdout.strip())`. -/
def check_local_changes (statusR upstreamR countR logR : CmdResult) :
    Except String ChangeSet :=
  let c1 :=
    if statusR.exitCode == 0 && strTrim statusR.stdout != "" then
      { emptyChanges with uncommitted := true, uncommitted_output := statusR.stdout }
    else emptyChanges
  if upstreamR.exitCode == 0 then
    if countR.exitCode == 0 then
      match strToNat? countR.stdout with
      | Option.none => Except.error "invalid literal for int() with base 10"
      | Option.some n =>
        if 0 < n then
          Except.ok
            { c1 with
                unpushed := true
                unpushed_count := n
                unpushed_log := if logR.exitCode == 0 then strTrim logR.stdout else "" }
        else Except.ok c1
    else Except.ok c1
  else Except.ok c1

/-! ## Inspector claims -/

/-- C9 counterexample: the claim that every failing Inspector query is fatal
is false — `find_worktree_for_branch` absorbs a non-zero exit of
`git worktree list` into the partial result `none` ("branch not found")
instead of terminating the run. -/
theorem C9_inspector_counterexample :
    ¬ (∀ (bn : String) (r : CmdResult), r.exitCode ≠ 0 →
        ∃ msg, find_worktree_for_branch bn r = Except.error msg) := by
  intro h
  obtain ⟨msg, hmsg⟩ := h "main" ⟨1, "", "fatal: not a git repository"⟩ (by decide)
  have hval : find_worktree_for_branch "main" ⟨1, "", "fatal: not a git repository"⟩
      = Except.ok Option.none := rfl
  rw [hval] at hmsg
  cases hmsg

/-- C9 amended: Inspector query failures are absorbed, not fatal — a failing
worktree enumeration makes `find_worktree_for_branch` report "not found", and
failing status and upstream queries make `check_local_changes` return the
empty ChangeSet; the run continues with these partial results. -/
theorem C9_inspector_amended :
    (∀ (bn : String) (r : CmdResult), r.exitCode ≠ 0 →
      find_worktree_for_branch bn r = Except.ok Option.none) ∧
    (∀ (sR uR cR lR : CmdResult), sR.exitCode ≠ 0 → uR.exitCode ≠ 0 →
      check_local_changes sR uR cR lR = Except.ok emptyChanges) := by
  constructor
  · intro bn r h
    simp only [find_worktree_for_branch, bne_iff_ne, ne_eq, h, not_false_eq_true,
      if_true]
  · intro sR uR cR lR hs hu
    have hs' : (sR.exitCode == 0) = false := by simpa using hs
    have hu' : (uR.exitCode == 0) = false := by simpa using hu
    simp [check_local_changes, hs', hu']

/-- Witness for the amended C9 at concrete failing query results. -/
theorem C9_inspector_amended_witness :
    find_worktree_for_branch "main" ⟨1, "", ""⟩ = Except.ok Option.none ∧
    check_local_changes ⟨1, "", ""⟩ ⟨128, "", ""⟩ ⟨0, "0", ""⟩ ⟨0, "", ""⟩
      = Except.ok emptyChanges :=
  ⟨C9_inspector_amended.1 "main" ⟨1, "", ""⟩ (by decide),
   C9_inspector_amended.2 ⟨1, "", ""⟩ ⟨128, "", ""⟩ ⟨0, "0", ""⟩ ⟨0, "", ""⟩
     (by decide) (by decide)⟩

/-! ## Abstract git-repository state

The Materializer shells out to git; each command the scripts run is modelled
as a transition on this state that also produces the `CmdResult` the script
inspects. Boolean fields such as `stashPushFails` model environment failures
the script only observes through exit codes. -/

/-- Abstract state of the repository and of the source worktree, covering
exactly the git commands the materialization code runs. -/
structure GitWorld where
  /-- local branches: name to commit id -/
  branches : List (String × String)
  /-- remote-tracking refs: name (e.g. `origin/feature`) to commit id -/
  remotes : List (String × String)
  /-- worktrees: directory path to checked-out branch -/
  worktrees : List (String × String)
  /-- commit id at HEAD of the source worktree -/
  sourceHead : String
  /-- `git status --porcelain` output in the source worktree; nonblank means dirty -/
  statusOutput : String
  /-- the status query itself exits non-zero -/
  statusFails : Bool
  /-- upstream tracking ref of the source worktree's branch, if configured -/
  upstream : Option String
  /-- commits ahead of upstream in the source worktree -/
  unpushedCount : Nat
  /-- one-line log of the unpushed commits -/
  unpushedLog : String
  /-- stash stack of the repository, most recent entry first -/
  stash : List String
  /-- environment failure: `git stash push` exits non-zero -/
  stashPushFails : Bool
  /-- applying the transplanted stash entry into the new worktree conflicts -/
  applyConflicts : Bool
  /-- environment failure: `git worktree list` exits non-zero -/
  listFails : Bool
  /-- uncommitted changes present in the new worktree (set by a stash apply) -/
  newWorktreeDirty : Bool
deriving Repr, DecidableEq

/-- First value bound to a key in an association list. -/
def lookupStr (l : List (String × String)) (k : String) : Option String :=
  match l.find? (fun p => p.1 == k) with
  | Option.some p => Option.some p.2
  | Option.none => Option.none

/-- Commit id a ref name resolves to: local branches first, then
remote-tracking refs — what `git worktree add ... <start>` accepts. -/
def GitWorld.resolveCommit (w : GitWorld) (r : String) : Option String :=
  match lookupStr w.branches r with
  | Option.some c => Option.some c
  | Option.none => lookupStr w.remotes r

/-- A worktree directory is registered at this path. -/
def GitWorld.hasWorktreePath (w : GitWorld) (p : String) : Bool :=
  (w.worktrees.map Prod.fst).contains p

/-- A local branch of this name exists. -/
def GitWorld.hasBranch (w : GitWorld) (b : String) : Bool :=
  (w.branches.map Prod.fst).contains b

/-- The source worktree has uncommitted changes (nonblank porcelain status). -/
def GitWorld.dirty (w : GitWorld) : Bool :=
  strTrim w.statusOutput != ""

/-- `git stash push -m msg` in the source worktree: with changes present it
pushes an entry and reports having saved state (echoing the message, as git
does); on a clean tree it exits 0 saying `No local changes to save`. -/
def gitStashPush (msg : String) (w : GitWorld) : GitWorld × CmdResult :=
  if w.stashPushFails then (w, ⟨1, "", "error: unable to stash"⟩)
  else if w.dirty then
    ({ w with stash := msg :: w.stash, statusOutput := "" },
     ⟨0, "Saved working directory and index state On branch: " ++ msg, ""⟩)
  else (w, ⟨0, "No local changes to save", ""⟩)

/-- `git branch name` run with the source worktree as cwd: create the branch
at that worktree's HEAD. -/
def gitBranchCreate (name : String) (w : GitWorld) : GitWorld × CmdResult :=
  if w.hasBranch name then
    (w, ⟨128, "", "fatal: a branch named " ++ name ++ " already exists"⟩)
  else
    ({ w with branches := w.branches ++ [(name, w.sourceHead)] }, ⟨0, "", ""⟩)

/-- `git worktree add path branch`, checking out an existing branch. -/
def gitWorktreeAddExisting (path branch : String) (w : GitWorld) :
    GitWorld × CmdResult :=
  if w.hasWorktreePath path then (w, ⟨128, "", "fatal: " ++ path ++ " already exists"⟩)
  else if !(w.hasBranch branch) then (w, ⟨128, "", "fatal: invalid reference: " ++ branch⟩)
  else ({ w with worktrees := w.worktrees ++ [(path, branch)] }, ⟨0, "", ""⟩)

/-- `git worktree add path -b branch start`: create the branch at the commit
`start` resolves to and check it out in a new worktree. -/
def gitWorktreeAddFrom (path branch start : String) (w : GitWorld) :
    GitWorld × CmdResult :=
  if w.hasWorktreePath path || w.hasBranch branch then
    (w, ⟨128, "", "fatal: already exists"⟩)
  else
    match w.resolveCommit start with
    | Option.some c =>
        ({ w with
            branches := w.branches ++ [(branch, c)]
            worktrees := w.worktrees ++ [(path, branch)] }, ⟨0, "", ""⟩)
    | Option.none => (w, ⟨128, "", "fatal: invalid reference: " ++ start⟩)

/-- `git rev-parse --abbrev-ref` of the upstream, run in the source worktree
(stdout carries a trailing newline, stripped by the caller). -/
def gitUpstreamQuery (w : GitWorld) : CmdResult :=
  match w.upstream with
  | Option.some u => ⟨0, u ++ "\n", ""⟩
  | Option.none => ⟨128, "", "fatal: no upstream configured"⟩

/-- `git stash apply` of the newest stash entry, run in the new worktree:
fails when the stash is empty or applying conflicts; succeeds leaving the
entry in the stash and the new worktree dirty. -/
def gitStashApply (w : GitWorld) : GitWorld × CmdResult :=
  match w.stash with
  | [] => (w, ⟨1, "", "No stash entries found."⟩)
  | _ :: _ =>
    if w.applyConflicts then (w, ⟨1, "", "CONFLICT (content): Merge conflict"⟩)
    else ({ w with newWorktreeDirty := true }, ⟨0, "", ""⟩)

/-- `git stash drop` of the newest stash entry, run in the source worktree. -/
def gitStashDrop (w : GitWorld) : GitWorld × CmdResult :=
  match w.stash with
  | [] => (w, ⟨1, "", "No stash entries found."⟩)
  | _ :: rest => ({ w with stash := rest }, ⟨0, "Dropped", ""⟩)

/-! ## Worktree Materializer -/

/-- The git commands `main` issues, in execution order. -/
inductive Event
  | showRefHeads (name : String)
  | showRefRemotes (name : String)
  | worktreeList
  | statusQuery
  | upstreamQuery
  | revListCount
  | logQuery
  | checkoutCmd (branch : String)
  | pullCmd
  | fetchCmd
  | stashPushCmd
  | branchCmd (name : String)
  | worktreeAddCmd (path branch : String)
  | worktreeAddFromCmd (path branch start : String)
  | stashApplyCmd
  | stashDropCmd
  | worktreeRemoveCmd (path : String)
deriving Repr, DecidableEq

/-- Whether the run reached this point normally or called
`exit_with_error` (exit status 1). -/
inductive RunResult
  | ok
  | fatal (msg : String)
deriving Repr, DecidableEq

/-- Outcome of a phase of `main`: final status, the git commands issued, the
warnings printed, and the resulting repository state. -/
structure MatResult where
  result : RunResult
  events : List Event
  warnings : List String
  world : GitWorld
deriving Repr, DecidableEq

/-- The `run_git` fatal message for a failed checked command. -/
def gitFailMsg (r : CmdResult) : String :=
  "Git command failed: " ++ strTrim r.stderr

/-- The default materialization: `git worktree add path -b branch source`
(run with `check=True`, so a failure is fatal). -/
def materializeFromSource (sourceBranch branchName worktreePath : String)
    (pre : List Event) (w : GitWorld) : MatResult :=
  let r := gitWorktreeAddFrom worktreePath branchName sourceBranch w
  { result := if r.2.exitCode == 0 then RunResult.ok else RunResult.fatal (gitFailMsg r.2)
    events := pre ++ [Event.worktreeAddFromCmd worktreePath branchName sourceBranch]
    warnings := []
    world := r.1 }

/-- The materialization step of `main` (docimp lines 899-950, wtd lines
707-765), dispatching on the resolved inclusion mode:
`none` branches from the upstream ref when the source worktree has unpushed
commits and an upstream is configured, else from the source branch;
`unpushed` creates the branch at the source worktree's HEAD and adds a
worktree for it; `uncommitted` and `all` stash, branch at HEAD, add the
worktree, then apply and (only on success) drop the stash entry. -/
def materialize (sourceBranch : String) (sourceWorktree : Option String)
    (changes : Option ChangeSet) (branchName worktreePath : String)
    (mode : InclusionMode) (w : GitWorld) : MatResult :=
  match mode with
  | InclusionMode.none =>
    match sourceWorktree, changes with
    | Option.some _, Option.some ci =>
      if ci.unpushed then
        let uq := gitUpstreamQuery w
        if uq.exitCode == 0 then
          materializeFromSource (strTrim uq.stdout) branchName worktreePath
            [Event.upstreamQuery] w
        else
          materializeFromSource sourceBranch branchName worktreePath
            [Event.upstreamQuery] w
      else materializeFromSource sourceBranch branchName worktreePath [] w
    | _, _ => materializeFromSource sourceBranch branchName worktreePath [] w
  | InclusionMode.unpushed =>
    let rb := gitBranchCreate branchName w
    if rb.2.exitCode != 0 then
      { result := RunResult.fatal (gitFailMsg rb.2)
        events := [Event.branchCmd branchName], warnings := [], world := rb.1 }
    else
      let rw := gitWorktreeAddExisting worktreePath branchName rb.1
      { result := if rw.2.exitCode == 0 then RunResult.ok
                  else RunResult.fatal (gitFailMsg rw.2)
        events := [Event.branchCmd branchName, Event.worktreeAddCmd worktreePath branchName]
        warnings := [], world := rw.1 }
  | InclusionMode.uncommitted | InclusionMode.all =>
    let rs := gitStashPush ("temp-for-" ++ branchName) w
    let stashed := rs.2.exitCode == 0 && !(containsSubstr rs.2.stdout "No local changes")
    let rb := gitBranchCreate branchName rs.1
    if rb.2.exitCode != 0 then
      { result := RunResult.fatal (gitFailMsg rb.2)
        events := [Event.stashPushCmd, Event.branchCmd branchName]
        warnings := [], world := rb.1 }
    else
      let rw := gitWorktreeAddExisting worktreePath branchName rb.1
      if rw.2.exitCode != 0 then
        { result := RunResult.fatal (gitFailMsg rw.2)
          events := [Event.stashPushCmd, Event.branchCmd branchName,
                     Event.worktreeAddCmd worktreePath branchName]
          warnings := [], world := rw.1 }
      else
        if stashed then
          let ra := gitStashApply rw.1
          if ra.2.exitCode != 0 then
            { result := RunResult.ok
              events := [Event.stashPushCmd, Event.branchCmd branchName,
                         Event.worktreeAddCmd worktreePath branchName,
                         Event.stashApplyCmd]
              warnings := ["Failed to apply stashed changes: " ++ ra.2.stderr,
                           "Changes remain stashed in source worktree"]
              world := ra.1 }
          else
            let rd := gitStashDrop ra.1
            { result := RunResult.ok
              events := [Event.stashPushCmd, Event.branchCmd branchName,
                         Event.worktreeAddCmd worktreePath branchName,
                         Event.stashApplyCmd, Event.stashDropCmd]
              warnings := [], world := rd.1 }
        else
          { result := RunResult.ok
            events := [Event.stashPushCmd, Event.branchCmd branchName,
                       Event.worktreeAddCmd worktreePath branchName]
            warnings := [], world := rw.1 }

/-- The `stashed` flag the uncommitted/all path computes: the stash command
exited 0 and its output does not contain `No local changes`. -/
def stashedFlag (branchName : String) (w : GitWorld) : Bool :=
  let rs := gitStashPush ("temp-for-" ++ branchName) w
  rs.2.exitCode == 0 && !(containsSubstr rs.2.stdout "No local changes")

/-- Exit status of the stash apply attempted after the stash/branch/add
sequence (branch and worktree creation do not touch the stash). -/
def applyOkFlag (branchName : String) (w : GitWorld) : Bool :=
  (gitStashApply (gitStashPush ("temp-for-" ++ branchName) w).1).2.exitCode == 0

/-! ## Materializer claims -/

/-- C1: with mode `uncommitted` or `all` and an existing source worktree, the
Materializer performs exactly the sequence stash-push, branch at the source
worktree's HEAD, worktree add for that branch, then — only if something was
stashed, i.e. the stash command exited 0 and did not report `No local
changes` — a stash apply into the new worktree followed by a stash drop only
when the apply succeeded. The branch and worktree commands precede any stash
apply in the trace, the new branch points at the source HEAD, and the new
worktree checks out that branch. -/
theorem C1_materialize_stash_sequence
    (sb sp bn wp : String) (ci : ChangeSet) (mode : InclusionMode) (w : GitWorld)
    (hm : mode = InclusionMode.uncommitted ∨ mode = InclusionMode.all)
    (hb : w.hasBranch bn = false) (hp : w.hasWorktreePath wp = false) :
    (materialize sb (Option.some sp) (Option.some ci) bn wp mode w).events =
      [Event.stashPushCmd, Event.branchCmd bn, Event.worktreeAddCmd wp bn] ++
        (if stashedFlag bn w then
          [Event.stashApplyCmd] ++
            (if applyOkFlag bn w then [Event.stashDropCmd] else [])
         else []) ∧
    (materialize sb (Option.some sp) (Option.some ci) bn wp mode w).result
      = RunResult.ok ∧
    (bn, w.sourceHead) ∈
      (materialize sb (Option.some sp) (Option.some ci) bn wp mode w).world.branches ∧
    (wp, bn) ∈
      (materialize sb (Option.some sp) (Option.some ci) bn wp mode w).world.worktrees ∧
    (stashedFlag bn w = true → applyOkFlag bn w = true →
      (materialize sb (Option.some sp) (Option.some ci) bn wp mode w).world.stash
        = w.stash) := by
  simp only [GitWorld.hasBranch] at hb
  simp only [GitWorld.hasWorktreePath] at hp
  simp at hb hp
  have hnl : containsSubstr "No local changes to save" "No local changes" = true := by
    decide
  rcases hm with rfl | rfl <;>
  · cases hsf : w.stashPushFails <;> cases hd : w.dirty
    case false.true =>
      cases hcc : containsSubstr
          ("Saved working directory and index state On branch: " ++ ("temp-for-" ++ bn))
          "No local changes"
      case false =>
        cases hac : w.applyConflicts <;>
          simp [materialize, stashedFlag, applyOkFlag, gitStashPush, gitBranchCreate,
            gitWorktreeAddExisting, gitStashApply, gitStashDrop, GitWorld.hasBranch,
            GitWorld.hasWorktreePath, hsf, hd, hb, hp, hcc, hac]
      case true =>
        simp [materialize, stashedFlag, applyOkFlag, gitStashPush, gitBranchCreate,
          gitWorktreeAddExisting, gitStashApply, gitStashDrop, GitWorld.hasBranch,
          GitWorld.hasWorktreePath, hsf, hd, hb, hp, hcc]
    all_goals
      simp [materialize, stashedFlag, applyOkFlag, gitStashPush, gitBranchCreate,
        gitWorktreeAddExisting, gitStashApply, gitStashDrop, GitWorld.hasBranch,
        GitWorld.hasWorktreePath, hsf, hd, hb, hp, hnl]

/-- Witness for C1: a concrete dirty source worktree with no apply conflict
runs the full stash, branch, add, apply, drop sequence. -/
theorem C1_materialize_stash_sequence_witness :
    GitWorld.hasBranch
      { branches := [("main", "c0"), ("feature", "c3")]
        remotes := [("origin/feature", "c1")]
        worktrees := [("/repo", "main"), ("/wt/feature", "feature")]
        sourceHead := "c3", statusOutput := " M cli/src/index.ts"
        statusFails := false, upstream := Option.some "origin/feature"
        unpushedCount := 3, unpushedLog := "abc123 wip", stash := []
        stashPushFails := false, applyConflicts := false, listFails := false
        newWorktreeDirty := false } "issue-1" = false ∧
    (materialize "feature" (Option.some "/wt/feature")
        (Option.some { uncommitted := true, uncommitted_output := " M a"
                       unpushed := true, unpushed_count := 3, unpushed_log := "abc wip" })
        "issue-1" "/wt/issue-1" InclusionMode.all
        { branches := [("main", "c0"), ("feature", "c3")]
          remotes := [("origin/feature", "c1")]
          worktrees := [("/repo", "main"), ("/wt/feature", "feature")]
          sourceHead := "c3", statusOutput := " M cli/src/index.ts"
          statusFails := false, upstream := Option.some "origin/feature"
          unpushedCount := 3, unpushedLog := "abc123 wip", stash := []
          stashPushFails := false, applyConflicts := false, listFails := false
          newWorktreeDirty := false }).events
      = [Event.stashPushCmd, Event.branchCmd "issue-1",
         Event.worktreeAddCmd "/wt/issue-1" "issue-1",
         Event.stashApplyCmd, Event.stashDropCmd] :=
  ⟨by decide,
   ((C1_materialize_stash_sequence "feature" "/wt/feature" "issue-1" "/wt/issue-1"
      { uncommitted := true, uncommitted_output := " M a"
        unpushed := true, unpushed_count := 3, unpushed_log := "abc wip" }
      InclusionMode.all _ (Or.inr rfl) (by decide) (by decide)).1).trans (by decide)⟩

/-- C2: when the stash-apply step fails (here: it conflicts), the new
worktree still exists in the final state, the stash entry pushed from the
source worktree remains (no drop is issued), warnings are produced, and the
run does not abort — the result is not fatal. -/
theorem C2_stash_apply_failure_recovery
    (sb sp bn wp : String) (ci : ChangeSet) (mode : InclusionMode) (w : GitWorld)
    (hm : mode = InclusionMode.uncommitted ∨ mode = InclusionMode.all)
    (hb : w.hasBranch bn = false) (hp : w.hasWorktreePath wp = false)
    (hst : stashedFlag bn w = true) (hac : w.applyConflicts = true) :
    (materialize sb (Option.some sp) (Option.some ci) bn wp mode w).result
      = RunResult.ok ∧
    (wp, bn) ∈
      (materialize sb (Option.some sp) (Option.some ci) bn wp mode w).world.worktrees ∧
    (materialize sb (Option.some sp) (Option.some ci) bn wp mode w).world.stash
      = ("temp-for-" ++ bn) :: w.stash ∧
    (materialize sb (Option.some sp) (Option.some ci) bn wp mode w).events =
      [Event.stashPushCmd, Event.branchCmd bn, Event.worktreeAddCmd wp bn,
       Event.stashApplyCmd] ∧
    (materialize sb (Option.some sp) (Option.some ci) bn wp mode w).warnings ≠ [] := by
  simp only [GitWorld.hasBranch] at hb
  simp only [GitWorld.hasWorktreePath] at hp
  simp at hb hp
  have hsf : w.stashPushFails = false := by
    cases h : w.stashPushFails
    · rfl
    · rw [stashedFlag, gitStashPush, h] at hst; simp at hst
  have hd : w.dirty = true := by
    cases h : w.dirty
    · rw [stashedFlag, gitStashPush, hsf, h] at hst
      simp only [if_false, Bool.false_eq_true] at hst
      have : containsSubstr "No local changes to save" "No local changes" = true := by
        decide
      simp [this] at hst
    · rfl
  have hcc : containsSubstr
      ("Saved working directory and index state On branch: " ++ ("temp-for-" ++ bn))
      "No local changes" = false := by
    cases h : containsSubstr
        ("Saved working directory and index state On branch: " ++ ("temp-for-" ++ bn))
        "No local changes"
    · rfl
    · rw [stashedFlag, gitStashPush, hsf, hd] at hst
      simp only [if_false, if_true] at hst
      simp [h] at hst
  rcases hm with rfl | rfl <;>
    simp [materialize, gitStashPush, gitBranchCreate, gitWorktreeAddExisting,
      gitStashApply, GitWorld.hasBranch, GitWorld.hasWorktreePath, hsf, hd, hb, hp,
      hcc, hac]

/-- Witness for C2: the C1 witness world with a conflicting apply keeps the
stash entry and still reports a usable worktree. -/
theorem C2_stash_apply_failure_recovery_witness :
    (materialize "feature" (Option.some "/wt/feature")
        (Option.some { uncommitted := true, uncommitted_output := " M a"
                       unpushed := true, unpushed_count := 3, unpushed_log := "abc wip" })
        "issue-1" "/wt/issue-1" InclusionMode.uncommitted
        { branches := [("main", "c0"), ("feature", "c3")]
          remotes := [("origin/feature", "c1")]
          worktrees := [("/repo", "main"), ("/wt/feature", "feature")]
          sourceHead := "c3", statusOutput := " M cli/src/index.ts"
          statusFails := false, upstream := Option.some "origin/feature"
          unpushedCount := 3, unpushedLog := "abc123 wip", stash := []
          stashPushFails := false, applyConflicts := true, listFails := false
          newWorktreeDirty := false }).world.stash
      = ["temp-for-issue-1"] :=
  ((C2_stash_apply_failure_recovery "feature" "/wt/feature" "issue-1" "/wt/issue-1"
      { uncommitted := true, uncommitted_output := " M a"
        unpushed := true, unpushed_count := 3, unpushed_log := "abc wip" }
      InclusionMode.uncommitted _ (Or.inl rfl) (by decide) (by decide) (by decide)
      (by decide)).2.2.1).trans (by decide)

/-- C3: with mode `none`, when the source worktree exists, has unpushed
commits and an upstream tracking ref, the new branch is created at the
upstream ref's commit (not at the source HEAD); with unpushed commits but no
upstream, without unpushed commits, or without a source worktree, the new
branch is created directly from the source branch. -/
theorem C3_mode_none_branch_point
    (sb sp bn wp : String) (ci : ChangeSet) (w : GitWorld)
    (hb : w.hasBranch bn = false) (hp : w.hasWorktreePath wp = false) :
    (∀ u cu, ci.unpushed = true → w.upstream = Option.some u →
      strTrim (u ++ "\n") = u → w.resolveCommit u = Option.some cu →
      (materialize sb (Option.some sp) (Option.some ci) bn wp InclusionMode.none w).events
          = [Event.upstreamQuery, Event.worktreeAddFromCmd wp bn u] ∧
      (bn, cu) ∈ (materialize sb (Option.some sp) (Option.some ci) bn wp
          InclusionMode.none w).world.branches ∧
      (cu ≠ w.sourceHead → (bn, w.sourceHead) ∉
        (materialize sb (Option.some sp) (Option.some ci) bn wp
          InclusionMode.none w).world.branches)) ∧
    (∀ cs, ci.unpushed = true → w.upstream = Option.none →
      w.resolveCommit sb = Option.some cs →
      (materialize sb (Option.some sp) (Option.some ci) bn wp InclusionMode.none w).events
          = [Event.upstreamQuery, Event.worktreeAddFromCmd wp bn sb] ∧
      (bn, cs) ∈ (materialize sb (Option.some sp) (Option.some ci) bn wp
          InclusionMode.none w).world.branches) ∧
    (∀ cs, ci.unpushed = false → w.resolveCommit sb = Option.some cs →
      (materialize sb (Option.some sp) (Option.some ci) bn wp InclusionMode.none w).events
          = [Event.worktreeAddFromCmd wp bn sb] ∧
      (bn, cs) ∈ (materialize sb (Option.some sp) (Option.some ci) bn wp
          InclusionMode.none w).world.branches) ∧
    (∀ cs, w.resolveCommit sb = Option.some cs →
      (materialize sb Option.none Option.none bn wp InclusionMode.none w).events
          = [Event.worktreeAddFromCmd wp bn sb] ∧
      (bn, cs) ∈ (materialize sb Option.none Option.none bn wp
          InclusionMode.none w).world.branches) := by
  simp only [GitWorld.hasBranch] at hb
  simp only [GitWorld.hasWorktreePath] at hp
  simp at hb hp
  refine ⟨?_, ?_, ?_, ?_⟩
  · intro u cu hun hu htrim hcu
    refine ⟨?_, ?_, ?_⟩ <;>
      simp [materialize, materializeFromSource, gitUpstreamQuery, gitWorktreeAddFrom,
        GitWorld.hasBranch, GitWorld.hasWorktreePath, hun, hu, htrim, hcu, hb, hp]
    exact fun hne h => hne h.symm
  · intro cs hun hu hcs
    constructor <;>
      simp [materialize, materializeFromSource, gitUpstreamQuery, gitWorktreeAddFrom,
        GitWorld.hasBranch, GitWorld.hasWorktreePath, hun, hu, hcs, hb, hp]
  · intro cs hun hcs
    constructor <;>
      simp [materialize, materializeFromSource, gitWorktreeAddFrom, GitWorld.hasBranch,
        GitWorld.hasWorktreePath, hun, hcs, hb, hp]
  · intro cs hcs
    constructor <;>
      simp [materialize, materializeFromSource, gitWorktreeAddFrom, GitWorld.hasBranch,
        GitWorld.hasWorktreePath, hcs, hb, hp]

/-- Witness for C3: with three unpushed commits and upstream
`origin/feature` at `c1`, the new branch is created at `c1` rather than at
the source HEAD `c3`. -/
theorem C3_mode_none_branch_point_witness :
    (materialize "feature" (Option.some "/wt/feature")
        (Option.some { uncommitted := false, uncommitted_output := ""
                       unpushed := true, unpushed_count := 3, unpushed_log := "abc wip" })
        "issue-1" "/wt/issue-1" InclusionMode.none
        { branches := [("main", "c0"), ("feature", "c3")]
          remotes := [("origin/feature", "c1")]
          worktrees := [("/repo", "main"), ("/wt/feature", "feature")]
          sourceHead := "c3", statusOutput := ""
          statusFails := false, upstream := Option.some "origin/feature"
          unpushedCount := 3, unpushedLog := "abc123 wip", stash := []
          stashPushFails := false, applyConflicts := false, listFails := false
          newWorktreeDirty := false }).events
      = [Event.upstreamQuery,
         Event.worktreeAddFromCmd "/wt/issue-1" "issue-1" "origin/feature"] :=
  ((C3_mode_none_branch_point "feature" "/wt/feature" "issue-1" "/wt/issue-1"
      { uncommitted := false, uncommitted_output := ""
        unpushed := true, unpushed_count := 3, unpushed_log := "abc wip" }
      _ (by decide) (by decide)).1 "origin/feature" "c1" rfl rfl (by decide)
      (by decide)).1

/-! ## The docimp `main` flow -/

/-- Parsed command line of docimp `create_worktree.py`. -/
structure Args where
  worktree_name : String
  branch_name : String
  source_branch : String
  include_changes : Option InclusionMode
  exclude_changes : Bool
deriving Repr, DecidableEq

/-- Non-git environment inputs of `main`: the filesystem checks of
`validate_docimp_repo`, the continue-anyway answer, and the mode the
inclusion prompt would return. -/
structure MainEnv where
  inGitRepo : Bool
  looksLikeDocimp : Bool
  userContinues : Bool
  promptResult : InclusionMode
deriving Repr, DecidableEq

/-- A remote-tracking ref of this name exists (`git show-ref refs/remotes/...`). -/
def GitWorld.hasRemote (w : GitWorld) (b : String) : Bool :=
  (w.remotes.map Prod.fst).contains b

/-- Concatenation of a list of strings. -/
def strConcat (l : List String) : String :=
  l.foldl (fun a b => a ++ b) ""

/-- The porcelain text `git worktree list --porcelain` prints for the
registered worktrees: one block per worktree, blank-line separated. -/
def renderWorktreeList (w : GitWorld) : String :=
  strConcat (w.worktrees.map (fun p =>
    "worktree " ++ p.1 ++
    "\nHEAD 0000000000000000000000000000000000000000\nbranch refs/heads/" ++
    p.2 ++ "\n\n"))

/-- Captured result of `git worktree list --porcelain`. -/
def worktreeListResult (w : GitWorld) : CmdResult :=
  if w.listFails then ⟨1, "", "fatal: not a git repository"⟩
  else ⟨0, renderWorktreeList w, ""⟩

/-- Captured result of `git status --porcelain` in the source worktree. -/
def statusResult (w : GitWorld) : CmdResult :=
  if w.statusFails then ⟨1, "", "fatal: unable to read index"⟩
  else ⟨0, w.statusOutput, ""⟩

/-- Captured result of `git rev-list --count` against the upstream. -/
def revListCountResult (w : GitWorld) : CmdResult :=
  ⟨0, Nat.repr w.unpushedCount, ""⟩

/-- Captured result of the one-line `git log` of unpushed commits. -/
def logResult (w : GitWorld) : CmdResult :=
  ⟨0, w.unpushedLog, ""⟩

/-- Tail of `main` (docimp lines 879-950): create the worktrees directory,
refuse an existing worktree path, refuse an existing branch (one
`git show-ref` query), then materialize the chosen mode. -/
def docimpMaterializePhase (args : Args) (srcWt : Option String)
    (ci : Option ChangeSet) (choice : InclusionMode) (w : GitWorld) : MatResult :=
  let worktreePath := "../.docimp-wt/" ++ args.worktree_name
  if w.hasWorktreePath worktreePath then
    { result := RunResult.fatal ("Worktree already exists at " ++ worktreePath)
      events := [], warnings := [], world := w }
  else if w.hasBranch args.branch_name then
    { result := RunResult.fatal ("Branch " ++ args.branch_name ++ " already exists")
      events := [Event.showRefHeads args.branch_name], warnings := [], world := w }
  else
    let m := materialize args.source_branch srcWt ci args.branch_name worktreePath choice w
    { m with events := Event.showRefHeads args.branch_name :: m.events }

/-- Middle of `main` for a found source worktree (docimp lines 844-868):
query status and upstream (and, as `check_local_changes` does, the unpushed
count and log when they apply), resolve the inclusion choice, materialize. -/
def docimpChangesPhase (args : Args) (env : MainEnv) (pre0 : Option InclusionMode)
    (sp : String) (w : GitWorld) : MatResult :=
  let uR := gitUpstreamQuery w
  let evs := [Event.statusQuery, Event.upstreamQuery] ++
    (if uR.exitCode == 0 then
      [Event.revListCount] ++ (if 0 < w.unpushedCount then [Event.logQuery] else [])
     else [])
  match check_local_changes (statusResult w) uR (revListCountResult w) (logResult w) with
  | Except.error e =>
      { result := RunResult.fatal e, events := evs, warnings := [], world := w }
  | Except.ok ci =>
      let rc := resolve_include_changes pre0 true ci env.promptResult
      let m := docimpMaterializePhase args (Option.some sp) (Option.some ci) rc.1 w
      { m with events := evs ++ m.events }

/-- `main` of docimp `create_worktree.py` (lines 782-950, bootstrap steps
after materialization omitted): the conflicting-flags check comes first,
before the repository checks and before any git command; then source-branch
validation, worktree lookup, change detection, resolution and
materialization, accumulating every git command issued in `events`. -/
def docimpMain (args : Args) (env : MainEnv) (w : GitWorld) : MatResult :=
  if args.exclude_changes && args.include_changes.isSome then
    { result := RunResult.fatal "Cannot specify both --exclude-changes and --include-changes"
      events := [], warnings := [], world := w }
  else
    let pre0 := if args.exclude_changes then Option.some InclusionMode.none
                else args.include_changes
    if !env.inGitRepo then
      { result := RunResult.fatal "Not in a git repository"
        events := [], warnings := [], world := w }
    else if !env.looksLikeDocimp && !env.userContinues then
      { result := RunResult.fatal "aborted at repository check"
        events := [], warnings := [], world := w }
    else if w.hasBranch args.source_branch then
      match find_worktree_for_branch args.source_branch (worktreeListResult w) with
      | Except.error e =>
          { result := RunResult.fatal e
            events := [Event.showRefHeads args.source_branch, Event.worktreeList]
            warnings := [], world := w }
      | Except.ok (Option.some sp) =>
          let m := docimpChangesPhase args env pre0 sp w
          { m with
              events := Event.showRefHeads args.source_branch :: Event.worktreeList ::
                m.events }
      | Except.ok Option.none =>
          let m := docimpMaterializePhase args Option.none Option.none InclusionMode.none w
          { m with
              events := [Event.showRefHeads args.source_branch, Event.worktreeList,
                Event.checkoutCmd args.source_branch, Event.pullCmd] ++ m.events }
    else if w.hasRemote args.source_branch then
      let m := docimpMaterializePhase args Option.none Option.none InclusionMode.none w
      { m with
          events := [Event.showRefHeads args.source_branch,
            Event.showRefRemotes args.source_branch, Event.fetchCmd] ++ m.events }
    else
      { result := RunResult.fatal
          ("Source branch " ++ args.source_branch ++ " does not exist")
        events := [Event.showRefHeads args.source_branch,
          Event.showRefRemotes args.source_branch]
        warnings := [], world := w }

/-- C10: supplying both `--exclude-changes` and `--include-changes` is
rejected with a fatal error before any git command runs and before any state
changes: the event trace is empty and the repository state is untouched. -/
theorem C10_conflicting_flags (args : Args) (env : MainEnv) (w : GitWorld)
    (m : InclusionMode) (he : args.exclude_changes = true)
    (hi : args.include_changes = Option.some m) :
    docimpMain args env w =
      { result := RunResult.fatal
          "Cannot specify both --exclude-changes and --include-changes"
        events := [], warnings := [], world := w } := by
  simp [docimpMain, he, hi]

/-- Witness for C10 at a concrete command line. -/
theorem C10_conflicting_flags_witness :
    docimpMain
      { worktree_name := "issue-1", branch_name := "issue-1-fix"
        source_branch := "main", include_changes := Option.some InclusionMode.all
        exclude_changes := true }
      { inGitRepo := true, looksLikeDocimp := true, userContinues := true
        promptResult := InclusionMode.none }
      { branches := [("main", "c0")], remotes := [], worktrees := [("/repo", "main")]
        sourceHead := "c0", statusOutput := "", statusFails := false
        upstream := Option.none, unpushedCount := 0, unpushedLog := ""
        stash := [], stashPushFails := false, applyConflicts := false
        listFails := false, newWorktreeDirty := false } =
      { result := RunResult.fatal
          "Cannot specify both --exclude-changes and --include-changes"
        events := [], warnings := []
        world := { branches := [("main", "c0")], remotes := []
                   worktrees := [("/repo", "main")], sourceHead := "c0"
                   statusOutput := "", statusFails := false, upstream := Option.none
                   unpushedCount := 0, unpushedLog := "", stash := []
                   stashPushFails := false, applyConflicts := false
                   listFails := false, newWorktreeDirty := false } } :=
  C10_conflicting_flags _ _ _ InclusionMode.all rfl rfl

/-! ## Shared-Resource Linker

The Linker works on the filesystem; paths are segment lists and a filesystem
is a finite table of entries (regular file or directory, or symlink holding
its raw target string), with `lookupEntry` standing for the
`exists()/is_symlink()` test the scripts perform. -/

/-- What sits at a path: a regular file, a directory, or a symlink carrying
its target string. -/
inductive FSEntry
  | file
  | dir
  | link (target : String)
deriving Repr, DecidableEq

/-- A filesystem: path segments to entry. -/
structure FS where
  entries : List (List String × FSEntry)
deriving Repr, DecidableEq

/-- The entry at a path, if any. -/
def lookupEntry (fs : FS) (p : List String) : Option FSEntry :=
  match fs.entries.find? (fun e => e.1 == p) with
  | Option.some e => Option.some e.2
  | Option.none => Option.none

/-- Path-string to segments, as `pathlib` does: split on `/`, dropping empty
segments and `.` (`..` is kept). -/
def splitPath (s : String) : List String :=
  ((charsSplitOnChar '/' s.data).map String.mk).filter
    (fun seg => !(seg == "") && !(seg == "."))

/-- `Path.resolve()` on an absolute segment list: collapse `..` against the
preceding segment (never above the root). -/
def normalizeSegs (l : List String) : List String :=
  l.foldl (fun acc seg => if seg == ".." then acc.dropLast else acc ++ [seg]) []

/-- Render segments back to a path string (for messages). -/
def joinPath : List String → String
  | [] => ""
  | [a] => a
  | a :: rest => a ++ "/" ++ joinPath rest

/-- A symlink table row: wtd `SymlinkSpec` (lines 68-82). -/
structure SymlinkSpec where
  link_name : String
  target : String
  description : String
  required : Bool
deriving Repr, DecidableEq

/-- The static symlink table of the wtd script (`WORKTREE_SYMLINKS`,
lines 87-124). -/
def WORKTREE_SYMLINKS : List SymlinkSpec :=
  [{ link_name := ".claude", target := "../.shared/.claude"
     description := "Claude Code configuration", required := true },
   { link_name := ".envrc", target := "../.shared/.envrc"
     description := "direnv configuration for uv/Python", required := false },
   { link_name := ".planning", target := "../.shared/.planning"
     description := "Planning documents", required := true },
   { link_name := ".scratch", target := "../.shared/.scratch"
     description := "Scratch/temp files", required := true },
   { link_name := ".vscode", target := "../.shared/.vscode"
     description := "VS Code settings", required := true },
   { link_name := "CLAUDE.md", target := "../.shared/CLAUDE.md"
     description := "Claude documentation", required := true }]

/-- Where a spec's symlink is placed: worktree root plus the link name. -/
def specLinkPath (wt : List String) (s : SymlinkSpec) : List String :=
  wt ++ splitPath s.link_name

/-- The spec's target resolved relative to the link's directory
(wtd `validate_symlink_target`, lines 404-408). -/
def specTargetPath (wt : List String) (s : SymlinkSpec) : List String :=
  normalizeSegs ((specLinkPath wt s).dropLast ++ splitPath s.target)

/-- `target_path.exists()` of `validate_symlink_target`. -/
def specTargetExists (wt : List String) (fs : FS) (s : SymlinkSpec) : Bool :=
  (lookupEntry fs (specTargetPath wt s)).isSome

/-- wtd `validate_symlink_target` (lines 404-420): `ok true` = target
present, create it; `ok false` = optional target missing, warn and skip;
`error` = required target missing, abort naming the spec. -/
def validate_symlink_target (s : SymlinkSpec) (wt : List String) (fs : FS) :
    Except SymlinkSpec Bool :=
  if specTargetExists wt fs s then Except.ok true
  else if s.required then Except.error s
  else Except.ok false

/-- `create_symlink` of docimp (lines 185-212) and wtd (lines 389-401): an
existing destination that is a symlink to the exact expected target is
skipped (`ok (fs, true)`); any other existing destination is a conflict
(`error`); otherwise the symlink is created (`ok` with the extended
filesystem). Symlink targets compare as `Path` values, i.e. by segments. -/
def create_symlink (fs : FS) (target : String) (linkPath : List String) :
    Except String (FS × Bool) :=
  match lookupEntry fs linkPath with
  | Option.some (FSEntry.link t) =>
      if splitPath t == splitPath target then Except.ok (fs, true)
      else Except.error ("File or symlink already exists at " ++ joinPath linkPath)
  | Option.some _ =>
      Except.error ("File or symlink already exists at " ++ joinPath linkPath)
  | Option.none =>
      Except.ok (⟨(linkPath, FSEntry.link target) :: fs.entries⟩, false)

/-- The validation pass of wtd `create_symlinks` (lines 431-435): validate
every spec in order, aborting at the first required spec whose target is
missing, collecting the specs to create and the skip warnings. -/
def validateSpecs (wt : List String) (fs : FS) :
    List SymlinkSpec → Except SymlinkSpec (List SymlinkSpec × List String)
  | [] => Except.ok ([], [])
  | s :: rest =>
    match validate_symlink_target s wt fs with
    | Except.error e => Except.error e
    | Except.ok true =>
      match validateSpecs wt fs rest with
      | Except.ok (vs, ws) => Except.ok (s :: vs, ws)
      | Except.error e => Except.error e
    | Except.ok false =>
      match validateSpecs wt fs rest with
      | Except.ok (vs, ws) =>
          Except.ok (vs,
            ("Optional symlink target missing: " ++ joinPath (specTargetPath wt s)) ::
            ("Skipping: " ++ s.link_name) :: ws)
      | Except.error e => Except.error e

/-- The creation pass of wtd `create_symlinks` (lines 437-440): create each
validated symlink in order, a conflict aborting the pass. -/
def createSpecs (wt : List String) : FS → List SymlinkSpec → Except String FS
  | fs, [] => Except.ok fs
  | fs, s :: rest =>
    match create_symlink fs s.target (specLinkPath wt s) with
    | Except.ok (fs1, _) => createSpecs wt fs1 rest
    | Except.error e => Except.error e

/-- Why the Linker aborted: a required target was missing during validation,
or an existing destination conflicted during creation. -/
inductive LinkError
  | requiredMissing (spec : SymlinkSpec)
  | conflict (msg : String)
deriving Repr, DecidableEq

/-- wtd `create_symlinks` (lines 423-442): validate all specs, then create
the valid ones; returns the new filesystem, the created specs and the skip
warnings. -/
def create_symlinks (wt : List String) (fs : FS) :
    Except LinkError (FS × List SymlinkSpec × List String) :=
  match validateSpecs wt fs WORKTREE_SYMLINKS with
  | Except.error s => Except.error (LinkError.requiredMissing s)
  | Except.ok (vs, ws) =>
    match createSpecs wt fs vs with
    | Except.ok fs1 => Except.ok (fs1, vs, ws)
    | Except.error m => Except.error (LinkError.conflict m)

/-- The fatal message of a required-target abort, naming the failing spec
(wtd lines 413-416). -/
def requiredMissingMsg (wt : List String) (s : SymlinkSpec) : String :=
  "Required symlink target does not exist: " ++ joinPath (specTargetPath wt s) ++
  " for symlink: " ++ s.link_name ++ " -> " ++ s.target ++
  "; cannot create worktree with missing required symlink targets"

/-- Outcome of the linking phase of `main`. -/
structure LinkPhaseResult where
  result : RunResult
  world : GitWorld
  fs : FS
  created : List SymlinkSpec
  warnings : List String
deriving Repr

/-- The linking phase of wtd `main` (lines 767-779, docimp lines 952-979):
run `create_symlinks`; on a `SystemExit` force-remove the just-created
worktree and re-raise the fatal exit. -/
def wtdLinkPhase (w : GitWorld) (worktreePathStr : String) (wt : List String)
    (fs : FS) : LinkPhaseResult :=
  match create_symlinks wt fs with
  | Except.ok (fs1, vs, ws) =>
      { result := RunResult.ok, world := w, fs := fs1, created := vs, warnings := ws }
  | Except.error (LinkError.requiredMissing s) =>
      { result := RunResult.fatal (requiredMissingMsg wt s)
        world := { w with
          worktrees := w.worktrees.filter (fun p => !(p.1 == worktreePathStr)) }
        fs := fs, created := [], warnings := [] }
  | Except.error (LinkError.conflict m) =>
      { result := RunResult.fatal m
        world := { w with
          worktrees := w.worktrees.filter (fun p => !(p.1 == worktreePathStr)) }
        fs := fs, created := [], warnings := [] }

/-- The skip warnings `validate_symlink_target` prints for the optional
specs whose target is missing, in table order. -/
def optionalMissingWarnings (wt : List String) (fs : FS) :
    List SymlinkSpec → List String
  | [] => []
  | s :: rest =>
    if specTargetExists wt fs s then optionalMissingWarnings wt fs rest
    else if s.required then optionalMissingWarnings wt fs rest
    else ("Optional symlink target missing: " ++ joinPath (specTargetPath wt s)) ::
         ("Skipping: " ++ s.link_name) :: optionalMissingWarnings wt fs rest

/-- `target_path.unlink()` of brotein-buddy `create_symlinks`. -/
def removeEntry (fs : FS) (p : List String) : FS :=
  ⟨fs.entries.filter (fun e => !(e.1 == p))⟩

/-- One iteration of brotein-buddy `create_symlinks` (lines 394-398 and
410-414): unlink whatever exists at the destination, then place the
symlink. -/
def bbForceLink (fs : FS) (linkPath : List String) (target : String) : FS :=
  ⟨(linkPath, FSEntry.link target) :: (removeEntry fs linkPath).entries⟩

/-- brotein-buddy `create_symlinks` (setup-worktree.py lines 374-414): abort
only when `.shared` is missing; otherwise force-link the four root files,
make `.claude` (exist_ok), and force-link the three `.claude` entries —
overwriting any existing destination. -/
def bb_create_symlinks (repoRoot wtDir : List String) (fs : FS) :
    Except String FS :=
  if (lookupEntry fs (repoRoot ++ [".shared"])).isSome then
    let rootLinks : List (String × String) :=
      [("CLAUDE.md", "../../.shared/CLAUDE.md"),
       ("CLAUDE_CONTEXT.md", "../../.shared/CLAUDE_CONTEXT.md"),
       (".planning", "../../.shared/.planning"),
       (".scratch", "../../.shared/.scratch")]
    let fs1 := rootLinks.foldl (fun f p => bbForceLink f (wtDir ++ [p.1]) p.2) fs
    let fs2 :=
      if (lookupEntry fs1 (wtDir ++ [".claude"])).isSome then fs1
      else ⟨(wtDir ++ [".claude"], FSEntry.dir) :: fs1.entries⟩
    let claudeLinks : List (String × String) :=
      [("settings.local.json", "../../../.shared/.claude/settings.local.json"),
       ("skills", "../../../.shared/.claude/skills"),
       ("agents", "../../../.shared/.claude/agents")]
    Except.ok (claudeLinks.foldl
      (fun f p => bbForceLink f (wtDir ++ [".claude", p.1]) p.2) fs2)
  else Except.error ".shared directory not found"

/-- The first spec in the table whose target is missing although required —
the spec `validateSpecs` aborts at, if any. -/
def firstRequiredMissing (wt : List String) (fs : FS) :
    List SymlinkSpec → Option SymlinkSpec
  | [] => Option.none
  | s :: rest =>
    if s.required && !(specTargetExists wt fs s) then Option.some s
    else firstRequiredMissing wt fs rest

/-! ## Linker lemmas -/

lemma lookupEntry_cons (q : List String) (e : FSEntry)
    (entries : List (List String × FSEntry)) (p : List String) :
    lookupEntry ⟨(q, e) :: entries⟩ p
      = if q == p then Option.some e else lookupEntry ⟨entries⟩ p := by
  cases h : (q == p) <;> simp [lookupEntry, List.find?, h]

lemma validateSpecs_error (wt : List String) (fs : FS) :
    ∀ (l : List SymlinkSpec) (s : SymlinkSpec),
      firstRequiredMissing wt fs l = Option.some s →
      validateSpecs wt fs l = Except.error s := by
  intro l
  induction l with
  | nil => intro s h; cases h
  | cons a rest ih =>
    intro s h
    by_cases he : specTargetExists wt fs a = true
    · have h' : firstRequiredMissing wt fs rest = Option.some s := by
        simpa [firstRequiredMissing, he] using h
      simp [validateSpecs, validate_symlink_target, he, ih s h']
    · have he' : specTargetExists wt fs a = false := by simpa using he
      by_cases hr : a.required = true
      · have : a = s := by simpa [firstRequiredMissing, he', hr] using h
        subst this
        simp [validateSpecs, validate_symlink_target, he', hr]
      · have hr' : a.required = false := by simpa using hr
        have h' : firstRequiredMissing wt fs rest = Option.some s := by
          simpa [firstRequiredMissing, he', hr'] using h
        simp [validateSpecs, validate_symlink_target, he', hr', ih s h']

lemma validateSpecs_ok (wt : List String) (fs : FS) :
    ∀ (l : List SymlinkSpec),
      (∀ s ∈ l, s.required = true → specTargetExists wt fs s = true) →
      validateSpecs wt fs l
        = Except.ok (l.filter (specTargetExists wt fs),
            optionalMissingWarnings wt fs l) := by
  intro l
  induction l with
  | nil => intro _; rfl
  | cons a rest ih =>
    intro hall
    have hrest := fun s hs => hall s (List.mem_cons_of_mem a hs)
    by_cases he : specTargetExists wt fs a = true
    · simp [validateSpecs, validate_symlink_target, he, ih hrest,
        optionalMissingWarnings, List.filter_cons]
    · have hreq : a.required = false := by
        cases h : a.required
        · rfl
        · exact absurd (hall a (List.mem_cons_self a rest) h) he
      have he' : specTargetExists wt fs a = false := by simpa using he
      simp [validateSpecs, validate_symlink_target, he', hreq, ih hrest,
        optionalMissingWarnings, List.filter_cons]

lemma createSpecs_fresh (wt : List String) :
    ∀ (l : List SymlinkSpec) (fs : FS),
      (∀ s ∈ l, lookupEntry fs (specLinkPath wt s) = Option.none) →
      (l.map (specLinkPath wt)).Nodup →
      ∃ fs1, createSpecs wt fs l = Except.ok fs1 ∧
        (∀ p e, lookupEntry fs p = Option.some e →
          lookupEntry fs1 p = Option.some e) ∧
        (∀ s ∈ l, lookupEntry fs1 (specLinkPath wt s)
            = Option.some (FSEntry.link s.target)) := by
  intro l
  induction l with
  | nil =>
    intro fs _ _
    exact ⟨fs, rfl, fun p e h => h, fun s hs => absurd hs (List.not_mem_nil s)⟩
  | cons a rest ih =>
    intro fs hfresh hnodup
    have ha := hfresh a (List.mem_cons_self a rest)
    have hstep : create_symlink fs a.target (specLinkPath wt a)
        = Except.ok (⟨(specLinkPath wt a, FSEntry.link a.target) :: fs.entries⟩,
            false) := by
      simp [create_symlink, ha]
    obtain ⟨hnotin, htail⟩ :
        (∀ x ∈ rest, ¬ specLinkPath wt x = specLinkPath wt a) ∧
          (List.map (specLinkPath wt) rest).Nodup := by
      simpa using hnodup
    have hfresh' : ∀ s ∈ rest,
        lookupEntry ⟨(specLinkPath wt a, FSEntry.link a.target) :: fs.entries⟩
          (specLinkPath wt s) = Option.none := by
      intro s hs
      rw [lookupEntry_cons]
      have hne : (specLinkPath wt a == specLinkPath wt s) = false := by
        rw [beq_eq_false_iff_ne]
        intro hh
        exact hnotin s hs hh.symm
      rw [hne]
      simpa using hfresh s (List.mem_cons_of_mem a hs)
    obtain ⟨fs1, hcr, hpres, hnew⟩ :=
      ih ⟨(specLinkPath wt a, FSEntry.link a.target) :: fs.entries⟩ hfresh' htail
    refine ⟨fs1, ?_, ?_, ?_⟩
    · simp [createSpecs, hstep, hcr]
    · intro p e hp
      apply hpres
      rw [lookupEntry_cons]
      have hpa : (specLinkPath wt a == p) = false := by
        rw [beq_eq_false_iff_ne]
        intro hh
        rw [← hh, ha] at hp
        cases hp
      rw [hpa]
      simpa using hp
    · intro s hs
      rcases List.mem_cons.mp hs with rfl | hs'
      · apply hpres
        rw [lookupEntry_cons]
        simp
      · exact hnew s hs'

lemma createSpecs_noop (wt : List String) :
    ∀ (l : List SymlinkSpec) (fs : FS),
      (∀ s ∈ l, lookupEntry fs (specLinkPath wt s)
          = Option.some (FSEntry.link s.target)) →
      createSpecs wt fs l = Except.ok fs := by
  intro l
  induction l with
  | nil => intro fs _; rfl
  | cons a rest ih =>
    intro fs hall
    have ha := hall a (List.mem_cons_self a rest)
    have hstep : create_symlink fs a.target (specLinkPath wt a)
        = Except.ok (fs, true) := by
      simp [create_symlink, ha]
    simp [createSpecs, hstep, ih fs (fun s hs => hall s (List.mem_cons_of_mem a hs))]

lemma not_mem_filter_fst (l : List (String × String)) (x b : String) :
    (x, b) ∉ l.filter (fun p => !(p.1 == x)) := by
  intro h
  have hpred := (List.mem_filter.mp h).2
  simp at hpred

/-! ## Linker claims -/

/-- C7: if any required symlink target is absent during linking, the whole
operation aborts — the just-created worktree is force-removed (no entry for
its path remains), the fatal message is the one naming the failing spec, and
no symlink was created (validation precedes creation, so the filesystem is
unchanged); when every required target exists, the run succeeds, the
worktree survives, exactly the specs with existing targets are created, and
each missing optional target contributes only its skip warnings. -/
theorem C7_required_target_abort (w : GitWorld) (pathStr : String)
    (wt : List String) (fs : FS) :
    (∀ s, firstRequiredMissing wt fs WORKTREE_SYMLINKS = Option.some s →
      (wtdLinkPhase w pathStr wt fs).result
          = RunResult.fatal (requiredMissingMsg wt s) ∧
      (∀ b, (pathStr, b) ∉ (wtdLinkPhase w pathStr wt fs).world.worktrees) ∧
      (wtdLinkPhase w pathStr wt fs).fs = fs) ∧
    ((∀ s ∈ WORKTREE_SYMLINKS, s.required = true →
        specTargetExists wt fs s = true) →
      (∀ s ∈ WORKTREE_SYMLINKS, lookupEntry fs (specLinkPath wt s) = Option.none) →
      (WORKTREE_SYMLINKS.map (specLinkPath wt)).Nodup →
      (wtdLinkPhase w pathStr wt fs).result = RunResult.ok ∧
      (wtdLinkPhase w pathStr wt fs).world = w ∧
      (wtdLinkPhase w pathStr wt fs).created
          = WORKTREE_SYMLINKS.filter (specTargetExists wt fs) ∧
      (wtdLinkPhase w pathStr wt fs).warnings
          = optionalMissingWarnings wt fs WORKTREE_SYMLINKS) := by
  constructor
  · intro s h
    have hval := validateSpecs_error wt fs WORKTREE_SYMLINKS s h
    refine ⟨?_, ?_, ?_⟩ <;>
      simp [wtdLinkPhase, create_symlinks, hval, not_mem_filter_fst]
  · intro h1 h2 h3
    have hval := validateSpecs_ok wt fs WORKTREE_SYMLINKS h1
    have hfresh : ∀ s ∈ WORKTREE_SYMLINKS.filter (specTargetExists wt fs),
        lookupEntry fs (specLinkPath wt s) = Option.none :=
      fun s hs => h2 s (List.mem_of_mem_filter hs)
    have hnd : ((WORKTREE_SYMLINKS.filter (specTargetExists wt fs)).map
        (specLinkPath wt)).Nodup :=
      List.Nodup.sublist (List.Sublist.map (specLinkPath wt)
        (List.filter_sublist WORKTREE_SYMLINKS)) h3
    obtain ⟨fs1, hcr, _, _⟩ :=
      createSpecs_fresh wt (WORKTREE_SYMLINKS.filter (specTargetExists wt fs))
        fs hfresh hnd
    refine ⟨?_, ?_, ?_, ?_⟩ <;>
      simp [wtdLinkPhase, create_symlinks, hval, hcr]

/-- Witness for C7: in a concrete worktree, a missing required `.planning`
target aborts with the worktree removed, while only `.envrc` missing (an
optional target) merely warns, skips that one entry and succeeds. -/
theorem C7_required_target_abort_witness :
    ((wtdLinkPhase
        { branches := [("main", "c0")], remotes := [], worktrees := [("wtd/issue-9", "issue-9")]
          sourceHead := "c0", statusOutput := "", statusFails := false
          upstream := Option.none, unpushedCount := 0, unpushedLog := ""
          stash := [], stashPushFails := false, applyConflicts := false
          listFails := false, newWorktreeDirty := false }
        "wtd/issue-9" ["wtd", "issue-9"]
        ⟨[(["wtd", ".shared", ".claude"], FSEntry.dir),
          (["wtd", ".shared", ".scratch"], FSEntry.dir),
          (["wtd", ".shared", ".vscode"], FSEntry.dir),
          (["wtd", ".shared", "CLAUDE.md"], FSEntry.file)]⟩).result
      = RunResult.fatal (requiredMissingMsg ["wtd", "issue-9"]
          { link_name := ".planning", target := "../.shared/.planning"
            description := "Planning documents", required := true }) ∧
     ∀ b, ("wtd/issue-9", b) ∉ (wtdLinkPhase
        { branches := [("main", "c0")], remotes := [], worktrees := [("wtd/issue-9", "issue-9")]
          sourceHead := "c0", statusOutput := "", statusFails := false
          upstream := Option.none, unpushedCount := 0, unpushedLog := ""
          stash := [], stashPushFails := false, applyConflicts := false
          listFails := false, newWorktreeDirty := false }
        "wtd/issue-9" ["wtd", "issue-9"]
        ⟨[(["wtd", ".shared", ".claude"], FSEntry.dir),
          (["wtd", ".shared", ".scratch"], FSEntry.dir),
          (["wtd", ".shared", ".vscode"], FSEntry.dir),
          (["wtd", ".shared", "CLAUDE.md"], FSEntry.file)]⟩).world.worktrees) ∧
    ((wtdLinkPhase
        { branches := [("main", "c0")], remotes := [], worktrees := [("wtd/issue-9", "issue-9")]
          sourceHead := "c0", statusOutput := "", statusFails := false
          upstream := Option.none, unpushedCount := 0, unpushedLog := ""
          stash := [], stashPushFails := false, applyConflicts := false
          listFails := false, newWorktreeDirty := false }
        "wtd/issue-9" ["wtd", "issue-9"]
        ⟨[(["wtd", ".shared", ".claude"], FSEntry.dir),
          (["wtd", ".shared", ".planning"], FSEntry.dir),
          (["wtd", ".shared", ".scratch"], FSEntry.dir),
          (["wtd", ".shared", ".vscode"], FSEntry.dir),
          (["wtd", ".shared", "CLAUDE.md"], FSEntry.file)]⟩).result
      = RunResult.ok) :=
  ⟨⟨(C7_required_target_abort
      { branches := [("main", "c0")], remotes := [], worktrees := [("wtd/issue-9", "issue-9")]
        sourceHead := "c0", statusOutput := "", statusFails := false
        upstream := Option.none, unpushedCount := 0, unpushedLog := ""
        stash := [], stashPushFails := false, applyConflicts := false
        listFails := false, newWorktreeDirty := false }
      "wtd/issue-9" ["wtd", "issue-9"]
      ⟨[(["wtd", ".shared", ".claude"], FSEntry.dir),
        (["wtd", ".shared", ".scratch"], FSEntry.dir),
        (["wtd", ".shared", ".vscode"], FSEntry.dir),
        (["wtd", ".shared", "CLAUDE.md"], FSEntry.file)]⟩).1
      { link_name := ".planning", target := "../.shared/.planning"
        description := "Planning documents", required := true } (by decide)
      |>.1,
   (C7_required_target_abort
      { branches := [("main", "c0")], remotes := [], worktrees := [("wtd/issue-9", "issue-9")]
        sourceHead := "c0", statusOutput := "", statusFails := false
        upstream := Option.none, unpushedCount := 0, unpushedLog := ""
        stash := [], stashPushFails := false, applyConflicts := false
        listFails := false, newWorktreeDirty := false }
      "wtd/issue-9" ["wtd", "issue-9"]
      ⟨[(["wtd", ".shared", ".claude"], FSEntry.dir),
        (["wtd", ".shared", ".scratch"], FSEntry.dir),
        (["wtd", ".shared", ".vscode"], FSEntry.dir),
        (["wtd", ".shared", "CLAUDE.md"], FSEntry.file)]⟩).1
      { link_name := ".planning", target := "../.shared/.planning"
        description := "Planning documents", required := true } (by decide)
      |>.2.1⟩,
   ((C7_required_target_abort
      { branches := [("main", "c0")], remotes := [], worktrees := [("wtd/issue-9", "issue-9")]
        sourceHead := "c0", statusOutput := "", statusFails := false
        upstream := Option.none, unpushedCount := 0, unpushedLog := ""
        stash := [], stashPushFails := false, applyConflicts := false
        listFails := false, newWorktreeDirty := false }
      "wtd/issue-9" ["wtd", "issue-9"]
      ⟨[(["wtd", ".shared", ".claude"], FSEntry.dir),
        (["wtd", ".shared", ".planning"], FSEntry.dir),
        (["wtd", ".shared", ".scratch"], FSEntry.dir),
        (["wtd", ".shared", ".vscode"], FSEntry.dir),
        (["wtd", ".shared", "CLAUDE.md"], FSEntry.file)]⟩).2
      (by decide) (by decide) (by decide)).1⟩

/-- A filesystem holding the shared directory and a regular file where the
brotein-buddy Linker wants to place the `CLAUDE.md` symlink. -/
def c8fs : FS :=
  ⟨[(["repo", ".shared"], FSEntry.dir),
    (["repo", "wt", "x", "CLAUDE.md"], FSEntry.file)]⟩

/-- C8 counterexample: the brotein-buddy `create_symlinks` does not abort on
a destination that exists as a regular file — it deletes it and places the
symlink, succeeding. -/
theorem C8_linker_counterexample :
    lookupEntry c8fs ["repo", "wt", "x", "CLAUDE.md"] = Option.some FSEntry.file ∧
    (bb_create_symlinks ["repo"] ["repo", "wt", "x"] c8fs).toOption.map
        (fun fs1 => lookupEntry fs1 ["repo", "wt", "x", "CLAUDE.md"])
      = Option.some (Option.some (FSEntry.link "../../.shared/CLAUDE.md")) ∧
    ∀ m, bb_create_symlinks ["repo"] ["repo", "wt", "x"] c8fs ≠ Except.error m := by
  refine ⟨by decide, by decide, ?_⟩
  intro m hm
  have h2 : (bb_create_symlinks ["repo"] ["repo", "wt", "x"] c8fs).toOption.map
      (fun fs1 => lookupEntry fs1 ["repo", "wt", "x", "CLAUDE.md"])
    = Option.some (Option.some (FSEntry.link "../../.shared/CLAUDE.md")) := by decide
  rw [hm] at h2
  simp [Except.toOption] at h2

/-- C8 amended: the docimp/wtd `create_symlink` is idempotent and
conflict-safe — a destination that is already a symlink to the exact
expected target is a no-op, any other existing destination aborts, and
rerunning after a success changes nothing (so a second pass over a fully
linked worktree succeeds without changes) — while the brotein-buddy variant
instead unlinks whatever exists at the destination and overwrites it with
the symlink. -/
theorem C8_linker_amended :
    (∀ (fs : FS) (t t' : String) (lp : List String),
        lookupEntry fs lp = Option.some (FSEntry.link t') →
        splitPath t' = splitPath t →
        create_symlink fs t lp = Except.ok (fs, true)) ∧
    (∀ (fs : FS) (t : String) (lp : List String) (e : FSEntry),
        lookupEntry fs lp = Option.some e →
        (∀ t', e = FSEntry.link t' → splitPath t' ≠ splitPath t) →
        ∃ m, create_symlink fs t lp = Except.error m) ∧
    (∀ (fs fs1 : FS) (b : Bool) (t : String) (lp : List String),
        create_symlink fs t lp = Except.ok (fs1, b) →
        create_symlink fs1 t lp = Except.ok (fs1, true)) ∧
    (∀ (wt : List String) (l : List SymlinkSpec) (fs : FS),
        (∀ s ∈ l, lookupEntry fs (specLinkPath wt s)
            = Option.some (FSEntry.link s.target)) →
        createSpecs wt fs l = Except.ok fs) ∧
    (∀ (fs : FS) (lp : List String) (t : String),
        lookupEntry (bbForceLink fs lp t) lp = Option.some (FSEntry.link t)) := by
  refine ⟨?_, ?_, ?_, createSpecs_noop, ?_⟩
  · intro fs t t' lp h heq
    simp [create_symlink, h, heq]
  · intro fs t lp e h hne
    refine ⟨"File or symlink already exists at " ++ joinPath lp, ?_⟩
    cases e with
    | file => simp [create_symlink, h]
    | dir => simp [create_symlink, h]
    | link t' =>
      have hbe : (splitPath t' == splitPath t) = false :=
        beq_eq_false_iff_ne.mpr (hne t' rfl)
      simp [create_symlink, h, hbe]
  · intro fs fs1 b t lp h
    rcases hl : lookupEntry fs lp with _ | e
    · simp only [create_symlink, hl] at h
      obtain ⟨rfl, rfl⟩ : (⟨(lp, FSEntry.link t) :: fs.entries⟩ : FS) = fs1 ∧ false = b := by
        simpa using h
      have hl1 : lookupEntry (⟨(lp, FSEntry.link t) :: fs.entries⟩ : FS) lp
          = Option.some (FSEntry.link t) := by
        rw [lookupEntry_cons]; simp
      simp [create_symlink, hl1]
    · cases e with
      | file => simp [create_symlink, hl] at h
      | dir => simp [create_symlink, hl] at h
      | link t' =>
        cases hbe : (splitPath t' == splitPath t) with
        | false => simp [create_symlink, hl, hbe] at h
        | true =>
          obtain ⟨rfl, rfl⟩ : fs = fs1 ∧ true = b := by
            simpa [create_symlink, hl, hbe] using h
          simp [create_symlink, hl, hbe]
  · intro fs lp t
    show lookupEntry ⟨(lp, FSEntry.link t) :: (removeEntry fs lp).entries⟩ lp
        = Option.some (FSEntry.link t)
    rw [lookupEntry_cons]
    simp

/-- Witness for the amended C8: a correct existing symlink is a no-op, and a
fully linked single-spec table passes `createSpecs` unchanged. -/
theorem C8_linker_amended_witness :
    create_symlink ⟨[(["wt", "CLAUDE.md"], FSEntry.link "../.shared/CLAUDE.md")]⟩
        "../.shared/CLAUDE.md" ["wt", "CLAUDE.md"]
      = Except.ok (⟨[(["wt", "CLAUDE.md"], FSEntry.link "../.shared/CLAUDE.md")]⟩, true) ∧
    createSpecs ["wt"]
        ⟨[(["wt", "CLAUDE.md"], FSEntry.link "../.shared/CLAUDE.md")]⟩
        [{ link_name := "CLAUDE.md", target := "../.shared/CLAUDE.md"
           description := "Claude documentation", required := true }]
      = Except.ok ⟨[(["wt", "CLAUDE.md"], FSEntry.link "../.shared/CLAUDE.md")]⟩ :=
  ⟨C8_linker_amended.1 _ "../.shared/CLAUDE.md" "../.shared/CLAUDE.md" _ (by decide) rfl,
   (C8_linker_amended.2.2.2.1) ["wt"] _ _ (by decide)⟩

/-! ## Resolver claims -/

/-- C4: for every ChangeSet, the interactive menu built by the Resolver
always contains `none`, contains `uncommitted` iff `hasUncommitted`,
contains `unpushed` iff `hasUnpushed`, and contains `all` iff both flags are
true — it never offers a mode whose corresponding flag is false. -/
theorem C4_menu_modes_iff (ci : ChangeSet) :
    InclusionMode.none ∈ (prompt_include_changes_options ci).map Prod.snd ∧
    (InclusionMode.uncommitted ∈ (prompt_include_changes_options ci).map Prod.snd ↔
      ci.uncommitted = true) ∧
    (InclusionMode.unpushed ∈ (prompt_include_changes_options ci).map Prod.snd ↔
      ci.unpushed = true) ∧
    (InclusionMode.all ∈ (prompt_include_changes_options ci).map Prod.snd ↔
      (ci.uncommitted = true ∧ ci.unpushed = true)) := by
  obtain ⟨u, uo, p, pc, pl⟩ := ci
  cases u <;> cases p <;> simp [prompt_include_changes_options]

/-- C5: for every ChangeSet with both `hasUncommitted` and `hasUnpushed`
false and no pre-selected mode, the Resolver returns `none` without ever
prompting, whether or not a source worktree was found. -/
theorem C5_no_changes_resolves_none (hasWt : Bool) (ci : ChangeSet)
    (pr : InclusionMode) (hu : ci.uncommitted = false) (hp : ci.unpushed = false) :
    resolve_include_changes Option.none hasWt ci pr = (InclusionMode.none, false) := by
  cases hasWt <;> simp [resolve_include_changes, hu, hp]

/-- Witness for C5 at a concrete ChangeSet. -/
theorem C5_no_changes_resolves_none_witness :
    resolve_include_changes Option.none true emptyChanges InclusionMode.all
      = (InclusionMode.none, false) :=
  C5_no_changes_resolves_none true emptyChanges InclusionMode.all rfl rfl

/-- C6 counterexample: pre-selecting `all` against a ChangeSet whose flags are
both false is overridden to `none` by the Resolver (docimp lines 863-865), so
the output does not equal the pre-selected mode regardless of the flags. -/
theorem C6_preselected_counterexample :
    resolve_include_changes (Option.some InclusionMode.all) true emptyChanges
        InclusionMode.none = (InclusionMode.none, false) ∧
    (resolve_include_changes (Option.some InclusionMode.all) true emptyChanges
        InclusionMode.none).1 ≠ InclusionMode.all := by
  constructor
  · rfl
  · decide

/-- C6 amended: when the ChangeSet reports at least one kind of change, a
pre-selected mode is used as-is without validation and without prompting;
when the ChangeSet reports no change at all, or no source worktree was
found, the Resolver returns `none` regardless of the pre-selection. -/
theorem C6_preselected_amended (m : InclusionMode) (ci : ChangeSet)
    (pr : InclusionMode) :
    ((ci.uncommitted = true ∨ ci.unpushed = true) →
      resolve_include_changes (Option.some m) true ci pr = (m, false)) ∧
    (ci.uncommitted = false → ci.unpushed = false →
      resolve_include_changes (Option.some m) true ci pr = (InclusionMode.none, false)) ∧
    resolve_include_changes (Option.some m) false ci pr = (InclusionMode.none, false) := by
  refine ⟨?_, ?_, ?_⟩
  · rintro (h | h) <;> simp [resolve_include_changes, h]
  · intro hu hp; simp [resolve_include_changes, hu, hp]
  · simp [resolve_include_changes]

/-- Witness for the amended C6: a ChangeSet with uncommitted changes keeps a
pre-selected `uncommitted` mode unchanged. -/
theorem C6_preselected_amended_witness :
    resolve_include_changes (Option.some InclusionMode.uncommitted) true
        { emptyChanges with uncommitted := true, uncommitted_output := " M a.txt" }
        InclusionMode.none
      = (InclusionMode.uncommitted, false) :=
  (C6_preselected_amended InclusionMode.uncommitted
      { emptyChanges with uncommitted := true, uncommitted_output := " M a.txt" }
      InclusionMode.none).1 (Or.inl rfl)

end ClaudeSkills
